import Mathlib

/-
  Verification of the CyberCheck attendance platform's GPS plausibility core.

  Shallow embedding of:
    - src/src/lib/geolocation.ts   (getDetectionThresholds, calculateDistance,
                                    detectSuspiciousGPS)
    - src/src/pages/student/Checkin.tsx (handleCheckin decision logic)

  Numeric values (TypeScript `number`) are modelled as rationals where the code
  only compares and scales them, and as reals where the code applies
  transcendental functions (the Haversine distance).  JavaScript truthiness of
  optional numeric arguments (`x && x > 200`) is modelled explicitly: an absent
  value (`none`) and the number 0 are both falsy.
-/

namespace CyberCheck

/-- Role of the current actor, from the `userRole` parameter of
`detectSuspiciousGPS` (`'student' | 'teacher' | 'admin'`). -/
inductive Role where
  | student
  | teacher
  | admin
deriving DecidableEq, Repr

/-- Mirrors interface `LocationData` of geolocation.ts (latitude, longitude,
accuracy, timestamp). -/
structure LocationData where
  latitude : ℚ
  longitude : ℚ
  accuracy : ℚ
  timestamp : ℚ
deriving DecidableEq, Repr

/-- Mirrors interface `DetectionThresholds` of geolocation.ts. -/
structure DetectionThresholds where
  accuracyThreshold : ℚ
  maxAccuracy : ℚ
  varianceThreshold : ℚ
  timestampThreshold : ℚ
deriving DecidableEq, Repr

/-- The verdict record `{ isSuspicious, reasons }` returned by
`detectSuspiciousGPS`. -/
structure Verdict where
  isSuspicious : Bool
  reasons : List String
deriving DecidableEq, Repr

/-- Mirrors `getDetectionThresholds` (geolocation.ts lines 27-53).  The level is
a string because callers cast arbitrary database strings into
`FakeDetectionLevel` (`lesson.fake_detection_level as FakeDetectionLevel`), and
the switch has a `default` arm.  The default arm of the source returns
`getDetectionThresholds('medium')`; the medium record is inlined here.
`0.000001 = 1/1000000`, `0.00001 = 1/100000`, `0.0001 = 1/10000`. -/
def getDetectionThresholds (level : String) : DetectionThresholds :=
  if level = "minimal" then ⟨1, 20000, 1/1000000, 100⟩
  else if level = "medium" then ⟨3, 15000, 1/100000, 200⟩
  else if level = "maximal" then ⟨5, 10000, 1/10000, 500⟩
  else ⟨3, 15000, 1/100000, 200⟩

/-- Mirrors the `adjustedThresholds` object literal built inside
`detectSuspiciousGPS` (geolocation.ts lines 232-243).  The JavaScript guards
are `teacherRadius && teacherRadius > 200` and
`pinValiditySeconds && pinValiditySeconds < 60`: an absent (`undefined`) or
zero value is falsy, so the whole conjunction is falsy and the base value is
kept. -/
def adjustedThresholds (thresholds : DetectionThresholds)
    (teacherRadius pinValiditySeconds : Option ℚ) : DetectionThresholds :=
  ⟨thresholds.accuracyThreshold,
   thresholds.maxAccuracy,
   match teacherRadius with
   | some r =>
       if r ≠ 0 ∧ r > 200 then thresholds.varianceThreshold * 10
       else thresholds.varianceThreshold
   | none => thresholds.varianceThreshold,
   match pinValiditySeconds with
   | some p =>
       if p ≠ 0 ∧ p < 60 then thresholds.timestampThreshold / 2
       else thresholds.timestampThreshold
   | none => thresholds.timestampThreshold⟩

/-- Substring test on character lists, modelling JavaScript
`String.prototype.includes`. -/
def charsContain : List Char → List Char → Bool
  | [], sub => sub.isEmpty
  | c :: cs, sub => List.isPrefixOf sub (c :: cs) || charsContain cs sub

/-- JavaScript `s.includes(sub)`. -/
def strIncludes (s sub : String) : Bool :=
  charsContain s.data sub.data

/-- JavaScript `c.toLowerCase()` character by character. -/
def strToLower (s : String) : String :=
  String.mk (s.data.map Char.toLower)

/-- The emulator/simulator heuristic of `detectSuspiciousGPS`
(geolocation.ts lines 247-255): the lowercased user agent contains
"sdk", "emulator" or "simulator". -/
def emulatorCheck (userAgent : String) : Bool :=
  let ua := strToLower userAgent
  strIncludes ua "sdk" || strIncludes ua "emulator" || strIncludes ua "simulator"

/-- Reason pushed by the emulator heuristic (geolocation.ts line 254). -/
def reasonEmulator : String := "Emulator/Simulator aniqlandi"

/-- Reason pushed when `location.accuracy === 0` (geolocation.ts line 266). -/
def reasonZeroAccuracy : String := "Mumkin bo'lmagan GPS aniqligi (0 metr)"

/-- Reason pushed when `location.accuracy < 0.1` (geolocation.ts line 273). -/
def reasonHighAccuracy : String := "Mumkin bo'lmagan yuqori aniqlik"

/-- Reason pushed when two consecutive readings have identical coordinates
(geolocation.ts line 290). -/
def reasonIdenticalCoords : String := "GPS ko'rsatkichlari sun'iy ravishda bir xil"

/-- Reason pushed by the catch block of `detectSuspiciousGPS`
(geolocation.ts line 301). -/
def reasonGpsError : String := "GPS tekshiruvida xatolik"

/-- The coordinate-identity heuristic (geolocation.ts lines 284-291):
absolute latitude and longitude differences both below `0.0000001 = 1/10000000`
degrees. -/
def identicalCoords (r0 r1 : LocationData) : Bool :=
  decide (abs (r0.latitude - r1.latitude) < 1/10000000) &&
    decide (abs (r0.longitude - r1.longitude) < 1/10000000)

/-- Environment of one `detectSuspiciousGPS` run: the device identity string
(`navigator.userAgent`) and the outcomes of the at most three successive
`getCurrentLocation()` calls, in call order (line 258, then the two calls of
lines 279-280). -/
structure GpsEnv where
  userAgent : String
  acq1 : Except String LocationData
  acq2 : Except String LocationData
  acq3 : Except String LocationData

/-- Reasons accumulated by the heuristics of a fully successful student run,
before the corroboration gate (geolocation.ts lines 247-291): emulator marker,
exact-zero accuracy, sub-0.1 accuracy, identical consecutive coordinates.
Each triggered heuristic pushes exactly one reason. -/
def heuristicReasons (ua : String) (l r0 r1 : LocationData) : List String :=
  (if emulatorCheck ua then [reasonEmulator] else []) ++
    (if l.accuracy = 0 then [reasonZeroAccuracy] else []) ++
    (if l.accuracy < 1/10 then [reasonHighAccuracy] else []) ++
    (if identicalCoords r0 r1 then [reasonIdenticalCoords] else [])

/-- Mirrors `detectSuspiciousGPS` (geolocation.ts lines 215-305).  Returns the
verdict together with the number of location acquisitions the run started
(0 for exempt roles; 1 when the first acquisition fails; 3 otherwise, the two
`Promise.all` acquisitions both being started).  `isSuspicious` is set to
`true` by exactly the heuristics that push a reason; the catch block appends
`reasonGpsError` without touching `isSuspicious`; the corroboration gate
(lines 294-298) runs only when no acquisition failed.  When fewer than two
reasons accumulated, the gate first sets `isSuspicious = false` (line 296),
but the following `reasons = []` (line 297) assigns to the `const`-declared
binding of line 221 — a TypeScript error (TS2588) whose emitted JavaScript
(the build keeps `const`) throws a TypeError at runtime — so control jumps to
the catch block, which appends `reasonGpsError` to the still-populated list:
the verdict of that branch is `false` with the accumulated reasons plus the
error reason, never an empty list. -/
def detectSuspiciousGPS (level : String) (teacherRadius pinValiditySeconds : Option ℚ)
    (userRole : Option Role) (env : GpsEnv) : Verdict × Nat :=
  if userRole = some Role.teacher ∨ userRole = some Role.admin then
    (⟨false, []⟩, 0)
  else
    let thresholds := getDetectionThresholds level
    let _adjusted := adjustedThresholds thresholds teacherRadius pinValiditySeconds
    let emu := emulatorCheck env.userAgent
    let reasons0 : List String := if emu then [reasonEmulator] else []
    match env.acq1 with
    | Except.error _ => (⟨emu, reasons0 ++ [reasonGpsError]⟩, 1)
    | Except.ok location =>
      let reasons1 : List String :=
        reasons0 ++ (if location.accuracy = 0 then [reasonZeroAccuracy] else []) ++
          (if location.accuracy < 1/10 then [reasonHighAccuracy] else [])
      let susp1 : Bool :=
        emu || decide (location.accuracy = 0) || decide (location.accuracy < 1/10)
      match env.acq2, env.acq3 with
      | Except.ok r0, Except.ok r1 =>
        let reasons2 : List String :=
          reasons1 ++ (if identicalCoords r0 r1 then [reasonIdenticalCoords] else [])
        let susp2 : Bool := susp1 || identicalCoords r0 r1
        if reasons2.length < 2 then (⟨false, reasons2 ++ [reasonGpsError]⟩, 3)
        else (⟨susp2, reasons2⟩, 3)
      | _, _ => (⟨susp1, reasons1 ++ [reasonGpsError]⟩, 3)

/-- JavaScript `Math.atan2(y, x)`, modelled as the principal argument of the
complex number `x + y*i` (values in `(-π, π]`), which agrees with `Math.atan2`
on the reals. -/
noncomputable def atan2 (y x : ℝ) : ℝ := Complex.arg ⟨x, y⟩

/-- The inner Haversine term `a` of `calculateDistance` (geolocation.ts lines
62-70): with `φi = lati·π/180`, `Δφ = (lat2-lat1)·π/180`,
`Δλ = (lon2-lon1)·π/180`, the value
`sin(Δφ/2)·sin(Δφ/2) + cos φ1 · cos φ2 · sin(Δλ/2)·sin(Δλ/2)`. -/
noncomputable def haversineTerm (lat1 lon1 lat2 lon2 : ℝ) : ℝ :=
  let phi1 := lat1 * Real.pi / 180
  let phi2 := lat2 * Real.pi / 180
  let dPhi := (lat2 - lat1) * Real.pi / 180
  let dLam := (lon2 - lon1) * Real.pi / 180
  Real.sin (dPhi / 2) * Real.sin (dPhi / 2) +
    Real.cos phi1 * Real.cos phi2 * Real.sin (dLam / 2) * Real.sin (dLam / 2)

/-- Mirrors `calculateDistance` (geolocation.ts lines 56-74): Haversine
great-circle distance in meters, Earth radius `R = 6371e3`,
`c = 2 · atan2(√a, √(1-a))`, result `R · c`. -/
noncomputable def calculateDistance (lat1 lon1 lat2 lon2 : ℝ) : ℝ :=
  let a := haversineTerm lat1 lon1 lat2 lon2
  let c := 2 * atan2 (Real.sqrt a) (Real.sqrt (1 - a))
  6371000 * c

theorem atan2_nonneg (y x : ℝ) (hy : 0 ≤ y) : 0 ≤ atan2 y x :=
  Complex.arg_nonneg_iff.mpr hy

/-- The Haversine term rewritten through the product-to-sum identities:
`a = (1 - sin φ1 sin φ2 - cos φ1 cos φ2 cos Δλ) / 2`. -/
theorem haversineTerm_eq (lat1 lon1 lat2 lon2 : ℝ) :
    haversineTerm lat1 lon1 lat2 lon2 =
      (1 - Real.sin (lat1 * Real.pi / 180) * Real.sin (lat2 * Real.pi / 180) -
          Real.cos (lat1 * Real.pi / 180) * Real.cos (lat2 * Real.pi / 180) *
            Real.cos ((lon2 - lon1) * Real.pi / 180)) / 2 := by
  simp only [haversineTerm]
  have hw : (lat2 - lat1) * Real.pi / 180 / 2 =
      (lat2 * Real.pi / 180 - lat1 * Real.pi / 180) / 2 := by ring
  rw [hw]
  have hu : 2 * ((lat2 * Real.pi / 180 - lat1 * Real.pi / 180) / 2) =
      lat2 * Real.pi / 180 - lat1 * Real.pi / 180 := by ring
  have hv : 2 * ((lon2 - lon1) * Real.pi / 180 / 2) =
      (lon2 - lon1) * Real.pi / 180 := by ring
  have f1 := Real.sin_sq_eq_half_sub
    ((lat2 * Real.pi / 180 - lat1 * Real.pi / 180) / 2)
  rw [hu, Real.cos_sub] at f1
  have f2 := Real.sin_sq_eq_half_sub ((lon2 - lon1) * Real.pi / 180 / 2)
  rw [hv] at f2
  linear_combination f1 +
    Real.cos (lat1 * Real.pi / 180) * Real.cos (lat2 * Real.pi / 180) * f2

theorem haversineTerm_symm (lat1 lon1 lat2 lon2 : ℝ) :
    haversineTerm lat1 lon1 lat2 lon2 = haversineTerm lat2 lon2 lat1 lon1 := by
  rw [haversineTerm_eq, haversineTerm_eq]
  rw [show (lon1 - lon2) * Real.pi / 180 = -((lon2 - lon1) * Real.pi / 180) by
    ring, Real.cos_neg]
  ring

theorem haversineTerm_self (lat lon : ℝ) : haversineTerm lat lon lat lon = 0 := by
  simp only [haversineTerm]
  simp

/-- For all real inputs the Haversine term lies in `[0, 1]`, so both inner
square-root arguments `a` and `1 - a` are nonnegative. -/
theorem haversineTerm_mem_Icc (lat1 lon1 lat2 lon2 : ℝ) :
    0 ≤ haversineTerm lat1 lon1 lat2 lon2 ∧
      haversineTerm lat1 lon1 lat2 lon2 ≤ 1 := by
  rw [haversineTerm_eq]
  have h1 := Real.sin_sq_add_cos_sq (lat1 * Real.pi / 180)
  have h2 := Real.sin_sq_add_cos_sq (lat2 * Real.pi / 180)
  have h3 := Real.neg_one_le_cos ((lon2 - lon1) * Real.pi / 180)
  have h4 := Real.cos_le_one ((lon2 - lon1) * Real.pi / 180)
  have hts : (0:ℝ) ≤ 1 - Real.cos ((lon2 - lon1) * Real.pi / 180) := by linarith
  have hta : (0:ℝ) ≤ 1 + Real.cos ((lon2 - lon1) * Real.pi / 180) := by linarith
  rcases le_or_lt 0 (Real.cos (lat1 * Real.pi / 180) *
      Real.cos (lat2 * Real.pi / 180)) with hc | hc
  · constructor
    · nlinarith [sq_nonneg (Real.sin (lat1 * Real.pi / 180) -
          Real.sin (lat2 * Real.pi / 180)),
        sq_nonneg (Real.cos (lat1 * Real.pi / 180) -
          Real.cos (lat2 * Real.pi / 180)), mul_nonneg hc hts]
    · nlinarith [sq_nonneg (Real.sin (lat1 * Real.pi / 180) +
          Real.sin (lat2 * Real.pi / 180)),
        sq_nonneg (Real.cos (lat1 * Real.pi / 180) -
          Real.cos (lat2 * Real.pi / 180)), mul_nonneg hc hta]
  · have hc' : (0:ℝ) ≤ -(Real.cos (lat1 * Real.pi / 180) *
        Real.cos (lat2 * Real.pi / 180)) := by linarith
    constructor
    · nlinarith [sq_nonneg (Real.sin (lat1 * Real.pi / 180) -
          Real.sin (lat2 * Real.pi / 180)),
        sq_nonneg (Real.cos (lat1 * Real.pi / 180) +
          Real.cos (lat2 * Real.pi / 180)), mul_nonneg hc' hta]
    · nlinarith [sq_nonneg (Real.sin (lat1 * Real.pi / 180) +
          Real.sin (lat2 * Real.pi / 180)),
        sq_nonneg (Real.cos (lat1 * Real.pi / 180) +
          Real.cos (lat2 * Real.pi / 180)), mul_nonneg hc' hts]

theorem calculateDistance_symm (lat1 lon1 lat2 lon2 : ℝ) :
    calculateDistance lat1 lon1 lat2 lon2 = calculateDistance lat2 lon2 lat1 lon1 := by
  simp only [calculateDistance]
  rw [haversineTerm_symm]

theorem calculateDistance_nonneg (lat1 lon1 lat2 lon2 : ℝ) :
    0 ≤ calculateDistance lat1 lon1 lat2 lon2 := by
  unfold calculateDistance
  have h := atan2_nonneg (Real.sqrt (haversineTerm lat1 lon1 lat2 lon2))
    (Real.sqrt (1 - haversineTerm lat1 lon1 lat2 lon2)) (Real.sqrt_nonneg _)
  have : (0:ℝ) ≤ 2 * atan2 (Real.sqrt (haversineTerm lat1 lon1 lat2 lon2))
      (Real.sqrt (1 - haversineTerm lat1 lon1 lat2 lon2)) := by linarith
  exact mul_nonneg (by norm_num) this

theorem calculateDistance_self (lat lon : ℝ) :
    calculateDistance lat lon lat lon = 0 := by
  simp only [calculateDistance]
  rw [haversineTerm_self]
  have h1 : (⟨Real.sqrt (1 - 0), Real.sqrt 0⟩ : ℂ) = 1 := by
    apply Complex.ext <;> simp
  unfold atan2
  rw [h1, Complex.arg_one]
  ring

/-- Claim C9: `calculateDistance` is symmetric in its two coordinate pairs and
nonnegative, identical points yield exactly 0, and the inner square-root
arguments are well defined: the Haversine term `a` lies in `[0, 1]` for all
real inputs (the source has no explicit clamp; this bound is the property a
clamp would enforce, and it rules out a NaN from `√(1-a)`). -/
theorem calculateDistance_algebra (lat1 lon1 lat2 lon2 : ℝ) :
    calculateDistance lat1 lon1 lat2 lon2 = calculateDistance lat2 lon2 lat1 lon1 ∧
      0 ≤ calculateDistance lat1 lon1 lat2 lon2 ∧
      calculateDistance lat1 lon1 lat1 lon1 = 0 ∧
      0 ≤ haversineTerm lat1 lon1 lat2 lon2 ∧
      haversineTerm lat1 lon1 lat2 lon2 ≤ 1 :=
  ⟨calculateDistance_symm lat1 lon1 lat2 lon2,
    calculateDistance_nonneg lat1 lon1 lat2 lon2,
    calculateDistance_self lat1 lon1,
    (haversineTerm_mem_Icc lat1 lon1 lat2 lon2).1,
    (haversineTerm_mem_Icc lat1 lon1 lat2 lon2).2⟩

/-- Begin/end of the i-th `getCurrentLocation()` acquisition inside one
`detectSuspiciousGPS` run. -/
inductive AcqEvent where
  | beginAcq (i : Nat)
  | endAcq (i : Nat)
deriving DecidableEq, Repr

/-- Ordered acquisition events of a fully successful student-role run of
`detectSuspiciousGPS`, read off the await structure of geolocation.ts:
`await getCurrentLocation()` (line 258) starts and completes reading 1 before
anything else; `await Promise.all([getCurrentLocation(), getCurrentLocation()])`
(lines 278-281) evaluates the array literal first, so readings 2 and 3 are both
started before either is awaited, and the awaiting completes them both. -/
def studentRunAcqTrace : List AcqEvent :=
  [AcqEvent.beginAcq 1, AcqEvent.endAcq 1,
   AcqEvent.beginAcq 2, AcqEvent.beginAcq 3,
   AcqEvent.endAcq 2, AcqEvent.endAcq 3]

/-- Strictly sequential acquisition of the three readings: each acquisition
begins only after the previous one completed. -/
def sequentiallyAcquired (t : List AcqEvent) : Prop :=
  t.indexOf (AcqEvent.endAcq 1) < t.indexOf (AcqEvent.beginAcq 2) ∧
    t.indexOf (AcqEvent.endAcq 2) < t.indexOf (AcqEvent.beginAcq 3)

/-- Claim C3 (counterexample): the acquisition trace of a successful
student-role run is not strictly sequential — the third acquisition begins
before the second one completes, because readings 2 and 3 are started as one
`Promise.all` batch (geolocation.ts lines 278-281). -/
theorem studentRunAcqTrace_not_sequential :
    ¬ sequentiallyAcquired studentRunAcqTrace := by
  unfold sequentiallyAcquired
  decide

/-- Claim C3 (amended): reading 1 is acquired and completed before the two
additional readings start, but readings 2 and 3 are started as one concurrent
`Promise.all` batch: both begin before either completes. -/
theorem studentRunAcqTrace_batched :
    studentRunAcqTrace.indexOf (AcqEvent.endAcq 1) <
        studentRunAcqTrace.indexOf (AcqEvent.beginAcq 2) ∧
      studentRunAcqTrace.indexOf (AcqEvent.beginAcq 2) <
        studentRunAcqTrace.indexOf (AcqEvent.beginAcq 3) ∧
      studentRunAcqTrace.indexOf (AcqEvent.beginAcq 3) <
        studentRunAcqTrace.indexOf (AcqEvent.endAcq 2) := by decide

/-- Claim C5: for the teacher and admin roles, `detectSuspiciousGPS` returns
exactly `{isSuspicious: false, reasons: []}` for every detection level, teacher
radius, PIN validity and environment, and starts zero location acquisitions
(geolocation.ts lines 224-227 return before any location is read). -/
theorem detectSuspiciousGPS_role_exemption (level : String) (tr pv : Option ℚ)
    (env : GpsEnv) :
    detectSuspiciousGPS level tr pv (some Role.teacher) env = (⟨false, []⟩, 0) ∧
      detectSuspiciousGPS level tr pv (some Role.admin) env = (⟨false, []⟩, 0) :=
  ⟨rfl, rfl⟩

/-- Claim C10: the verdict and acquisition count of `detectSuspiciousGPS` are
independent of the `teacherRadius` and `pinValiditySeconds` arguments — the
adjusted thresholds computed from them (geolocation.ts lines 232-243) are never
consulted by any heuristic (lines 245-298). -/
theorem detectSuspiciousGPS_thresholds_noninterference (level : String)
    (tr tr' pv pv' : Option ℚ) (role : Option Role) (env : GpsEnv) :
    detectSuspiciousGPS level tr pv role env =
      detectSuspiciousGPS level tr' pv' role env := rfl

/-- Claim C1 (code bug, evaluation at the failing input): in a clean
all-success student run no heuristic reason accumulates (fewer than 2), yet
the returned reasons list is not empty.  Line 296 sets `isSuspicious = false`,
but the gate's `reasons = []` (line 297) assigns to the `const`-declared
binding of line 221 — a TypeScript error (TS2588) that throws a TypeError at
runtime — and the catch block appends `"GPS tekshiruvida xatolik"` to the
still-populated list, so the program never returns the empty reasons list the
claim (and the source's own clearing intent) states. -/
theorem detectSuspiciousGPS_clean_run_nonempty_reasons :
    (heuristicReasons "Mozilla" ⟨41, 69, 5, 1000⟩ ⟨41, 69, 5, 2000⟩
        ⟨41001/1000, 69, 5, 3000⟩).length = 0 ∧
      detectSuspiciousGPS "medium" none none (some Role.student)
          ⟨"Mozilla", Except.ok ⟨41, 69, 5, 1000⟩, Except.ok ⟨41, 69, 5, 2000⟩,
            Except.ok ⟨41001/1000, 69, 5, 3000⟩⟩ =
        (⟨false, [reasonGpsError]⟩, 3) := by
  constructor
  · simp +decide [heuristicReasons, emulatorCheck, strToLower, strIncludes,
      charsContain, identicalCoords, List.isPrefixOf, abs_lt]
    norm_num
  · simp +decide [detectSuspiciousGPS, emulatorCheck, strToLower, strIncludes,
      charsContain, identicalCoords, List.isPrefixOf, abs_lt]
    norm_num

/-- Claim C4 (amended): when an acquisition fails in a student-role run, the
reason `"GPS tekshiruvida xatolik"` is appended to the reasons accumulated so
far, the corroboration gate is skipped, and `isSuspicious` keeps the value set
by the heuristics that ran before the failure (so it is `false` only when none
of them had triggered).  The three conjuncts cover failure of the first
acquisition and failure of either acquisition of the `Promise.all` batch. -/
theorem detectSuspiciousGPS_failure_appends_error (level : String)
    (tr pv : Option ℚ) (ua msg msg2 : String) (l r0 : LocationData)
    (a2 a3 : Except String LocationData) :
    detectSuspiciousGPS level tr pv (some Role.student)
        ⟨ua, Except.error msg, a2, a3⟩ =
      (⟨emulatorCheck ua,
        (if emulatorCheck ua then [reasonEmulator] else []) ++ [reasonGpsError]⟩, 1) ∧
      detectSuspiciousGPS level tr pv (some Role.student)
          ⟨ua, Except.ok l, Except.error msg2, a3⟩ =
        (⟨emulatorCheck ua || decide (l.accuracy = 0) || decide (l.accuracy < 1/10),
          (if emulatorCheck ua then [reasonEmulator] else []) ++
              (if l.accuracy = 0 then [reasonZeroAccuracy] else []) ++
              (if l.accuracy < 1/10 then [reasonHighAccuracy] else []) ++
            [reasonGpsError]⟩, 3) ∧
      detectSuspiciousGPS level tr pv (some Role.student)
          ⟨ua, Except.ok l, Except.ok r0, Except.error msg2⟩ =
        (⟨emulatorCheck ua || decide (l.accuracy = 0) || decide (l.accuracy < 1/10),
          (if emulatorCheck ua then [reasonEmulator] else []) ++
              (if l.accuracy = 0 then [reasonZeroAccuracy] else []) ++
              (if l.accuracy < 1/10 then [reasonHighAccuracy] else []) ++
            [reasonGpsError]⟩, 3) :=
  ⟨rfl, rfl, rfl⟩

/-- Claim C6: `getDetectionThresholds` realises exactly the base table —
minimal ⟨1, 20000, 1/1000000, 100⟩, medium ⟨3, 15000, 1/100000, 200⟩,
maximal ⟨5, 10000, 1/10000, 500⟩ — and every other level string resolves to the
medium profile (the `default` arm, geolocation.ts lines 50-52).  Purity
(`resolve('medium') == resolve('medium')` always) is immediate because the
embedding is a function of the level alone. -/
theorem getDetectionThresholds_table :
    getDetectionThresholds "minimal" = ⟨1, 20000, 1/1000000, 100⟩ ∧
      getDetectionThresholds "medium" = ⟨3, 15000, 1/100000, 200⟩ ∧
      getDetectionThresholds "maximal" = ⟨5, 10000, 1/10000, 500⟩ ∧
      ∀ level : String, level ≠ "minimal" → level ≠ "medium" → level ≠ "maximal" →
        getDetectionThresholds level = getDetectionThresholds "medium" := by
  refine ⟨rfl, rfl, rfl, ?_⟩
  intro level h1 h2 h3
  simp [getDetectionThresholds, h1, h2, h3]

/-- Witness for C6: the unknown level "bogus" resolves to the medium profile. -/
theorem getDetectionThresholds_table_witness :
    getDetectionThresholds "bogus" = getDetectionThresholds "medium" :=
  getDetectionThresholds_table.2.2.2 "bogus" (by decide) (by decide) (by decide)

/-- Claim C7 (amended): the variance adjustment applies exactly when a teacher
radius is provided and exceeds 200 (the code's `teacherRadius &&
teacherRadius > 200` guard agrees with `> 200` there, since such a radius is
nonzero), but the timestamp adjustment applies exactly when a PIN validity is
provided, is nonzero, and is below 60 — a provided value of 0 satisfies
`pinValiditySeconds < 60` yet is JavaScript-falsy, so the guard
`pinValiditySeconds && pinValiditySeconds < 60` leaves the base value
unchanged.  The two adjustments touch different fields and are independent;
the remaining fields are never changed. -/
theorem adjustedThresholds_spec (t : DetectionThresholds) (tr pv : Option ℚ) :
    (adjustedThresholds t tr pv).accuracyThreshold = t.accuracyThreshold ∧
      (adjustedThresholds t tr pv).maxAccuracy = t.maxAccuracy ∧
      ((∃ r, tr = some r ∧ 200 < r) →
        (adjustedThresholds t tr pv).varianceThreshold = t.varianceThreshold * 10) ∧
      ((∀ r, tr = some r → r ≤ 200) →
        (adjustedThresholds t tr pv).varianceThreshold = t.varianceThreshold) ∧
      ((∃ p, pv = some p ∧ p ≠ 0 ∧ p < 60) →
        (adjustedThresholds t tr pv).timestampThreshold = t.timestampThreshold / 2) ∧
      ((∀ p, pv = some p → p = 0 ∨ 60 ≤ p) →
        (adjustedThresholds t tr pv).timestampThreshold = t.timestampThreshold) := by
  refine ⟨rfl, rfl, ?_, ?_, ?_, ?_⟩
  · rintro ⟨r, rfl, hr⟩
    have hne : r ≠ 0 := by intro h; rw [h] at hr; norm_num at hr
    simp [adjustedThresholds, hne, hr]
  · intro h
    cases tr with
    | none => rfl
    | some r =>
      have hr := h r rfl
      have hneg : ¬ (r ≠ 0 ∧ r > 200) := fun hc => absurd hc.2 (not_lt.mpr hr)
      simp [adjustedThresholds, hneg]
  · rintro ⟨p, rfl, hp0, hp60⟩
    simp [adjustedThresholds, hp0, hp60]
  · intro h
    cases pv with
    | none => rfl
    | some p =>
      have hp := h p rfl
      have hneg : ¬ (p ≠ 0 ∧ p < 60) := by
        rcases hp with hp | hp
        · exact fun hc => absurd hp hc.1
        · exact fun hc => absurd hc.2 (not_lt.mpr hp)
      simp [adjustedThresholds, hneg]

/-- Witness for C7 (amended): at the medium profile, a provided radius of 250
multiplies the variance floor by 10 and a provided PIN validity of 30 halves
the timestamp gap floor, both on the same profile. -/
theorem adjustedThresholds_spec_witness :
    (adjustedThresholds (getDetectionThresholds "medium") (some 250)
          (some 30)).varianceThreshold =
        (getDetectionThresholds "medium").varianceThreshold * 10 ∧
      (adjustedThresholds (getDetectionThresholds "medium") (some 250)
            (some 30)).timestampThreshold =
        (getDetectionThresholds "medium").timestampThreshold / 2 :=
  ⟨(adjustedThresholds_spec _ _ _).2.2.1 ⟨250, rfl, by norm_num⟩,
    (adjustedThresholds_spec _ _ _).2.2.2.2.1 ⟨30, rfl, by norm_num, by norm_num⟩⟩

/-- Claim C7 (counterexample): a provided PIN validity of 0 seconds is below
60, yet the timestamp gap floor is not halved — the JavaScript guard
`pinValiditySeconds && pinValiditySeconds < 60` is falsy at 0. -/
theorem adjustedThresholds_zero_pin_counterexample :
    (0:ℚ) < 60 ∧
      (adjustedThresholds (getDetectionThresholds "medium") none
            (some 0)).timestampThreshold ≠
        (getDetectionThresholds "medium").timestampThreshold / 2 := by
  constructor
  · norm_num
  · simp +decide only [adjustedThresholds, getDetectionThresholds]
    norm_num

/-- Claim C4 (counterexample): a student-role run on an emulator-marked device
in which the first acquisition fails returns `isSuspicious = true` (the
emulator heuristic had triggered before the failure), not `false` as the claim
states; the error reason is appended, not substituted. -/
theorem detectSuspiciousGPS_failure_not_failopen_counterexample :
    (detectSuspiciousGPS "medium" none none (some Role.student)
        ⟨"sdk-phone", Except.error "Joylashuvni aniqlab bo'lmadi",
          Except.ok ⟨41, 69, 5, 1000⟩, Except.ok ⟨41, 69, 5, 2000⟩⟩).1 =
      ⟨true, [reasonEmulator, reasonGpsError]⟩ := by decide

/-- JavaScript `x || d` for an optional numeric value (`undefined` and 0 are
falsy), as in `lesson.radius_meters || 120` (Checkin.tsx line 79). -/
def jsOrNum (x : Option ℚ) (d : ℚ) : ℚ :=
  match x with
  | some v => if v ≠ 0 then v else d
  | none => d

/-- JavaScript `x || d` for an optional string (`undefined` and `""` are
falsy), as in `lesson.fake_detection_level as FakeDetectionLevel || 'medium'`
(Checkin.tsx line 95). -/
def jsOrStr (x : Option String) (d : String) : String :=
  match x with
  | some s => if s ≠ "" then s else d
  | none => d

/-- Reason used by the skip path (Checkin.tsx lines 91 and 151). -/
def reasonSkipped : String := "GPS tekshiruvi o'tkazib yuborildi"

/-- The out-of-range reason of Checkin.tsx line 148:
`Darsdan {Math.round(distance)}m uzoqda (ruxsat: {radiusMeters}m)`;
JavaScript `Math.round` rounds half toward positive infinity. -/
noncomputable def tooFarReason (distance : ℝ) (radiusMeters : ℚ) : String :=
  "Darsdan " ++ toString ⌊distance + 1/2⌋ ++ "m uzoqda (ruxsat: " ++
    toString radiusMeters ++ "m)"

/-- Lesson row fields selected by the PIN lookup (Checkin.tsx line 64). -/
structure Lesson where
  latitude : ℚ
  longitude : ℚ
  radius_meters : Option ℚ
  fake_detection_level : Option String
  allow_skip_gps : Bool
  pin_validity_seconds : Option ℚ

/-- Environment of one `handleCheckin` attempt: the current user's role, the
lesson resolved from the PIN (`none` when no active, non-expired lesson
matches), the classifier's acquisition environment, and the outcome of the
orchestrator's own `getCurrentLocation()` call (Checkin.tsx line 103). -/
structure CheckinEnv where
  role : Option Role
  lessonLookup : Option Lesson
  gps : GpsEnv
  locAcq : Except String LocationData

/-- Attendance status recorded by `handleCheckin` (Checkin.tsx line 140). -/
inductive CheckinStatus where
  | present
  | suspicious
deriving DecidableEq, Repr

/-- Outcome of one `handleCheckin` attempt, restricted to the decision data:
rejection because the PIN resolves to no lesson (lines 70-76), rejection
because the orchestrator's location acquisition failed (lines 104-120), or a
recorded decision with the status, distance, `is_fake_gps` flag and
`suspicious_reason` persisted in lines 139-191. -/
inductive CheckinResult where
  | invalidPin
  | gpsError (message : String)
  | recorded (status : CheckinStatus) (distance : ℝ) (isFakeGPS : Bool)
      (suspiciousReason : Option String)

/-- Mirrors the decision logic of `handleCheckin` (Checkin.tsx lines 46-191).
The skip path (lines 83-91) is taken whenever the caller passes
`skipGPS = true`: the lesson's `allow_skip_gps` flag is selected by the query
(line 64) but never consulted in this function — it only gates the rendering
of the UI button that requests a skip (line 306).  On the skip path the
defaults `distance = 0`, `isWithinRadius = true` (lines 124-125) are kept and
the status determination (lines 139-152) yields `present` with the skip
reason.  On the normal path, the classifier runs first with the lesson's
level, radius and PIN validity plus the user's role (lines 94-99), then the
orchestrator's own location acquisition (line 103, rejecting on failure), then
distance and geofence (lines 127-135), then the precedence of lines 143-152:
classifier verdict, then geofence, then present. -/
noncomputable def handleCheckin (env : CheckinEnv) (skipGPS : Bool) :
    CheckinResult :=
  match env.lessonLookup with
  | none => CheckinResult.invalidPin
  | some lesson =>
    let radiusMeters : ℚ := jsOrNum lesson.radius_meters 120
    if skipGPS then
      CheckinResult.recorded CheckinStatus.present 0 false (some reasonSkipped)
    else
      let suspiciousCheck : Verdict :=
        (detectSuspiciousGPS (jsOrStr lesson.fake_detection_level "medium")
          lesson.radius_meters lesson.pin_validity_seconds env.role env.gps).1
      match env.locAcq with
      | Except.error msg => CheckinResult.gpsError msg
      | Except.ok location =>
        let distance : ℝ :=
          calculateDistance (location.latitude : ℝ) (location.longitude : ℝ)
            (lesson.latitude : ℝ) (lesson.longitude : ℝ)
        if suspiciousCheck.isSuspicious then
          CheckinResult.recorded CheckinStatus.suspicious distance true
            (some (String.intercalate ", " suspiciousCheck.reasons))
        else if ¬ (distance ≤ (radiusMeters : ℝ)) then
          CheckinResult.recorded CheckinStatus.suspicious distance false
            (some (tooFarReason distance radiusMeters))
        else
          CheckinResult.recorded CheckinStatus.present distance false none

/-- Claim C2 (amended): the skip path is taken whenever the caller requests
`skipGPS = true` and a lesson was resolved — for every lesson, including
lessons with `allow_skip_gps = false`, the flag being consulted only by the UI
that shows the skip button — and the resulting decision is status `present`,
distance 0, `is_fake_gps` false, with the reason
`"GPS tekshiruvi o'tkazib yuborildi"` ("GPS check skipped"). -/
theorem handleCheckin_skip_path (role : Option Role) (lesson : Lesson)
    (gps : GpsEnv) (locAcq : Except String LocationData) :
    handleCheckin ⟨role, some lesson, gps, locAcq⟩ true =
      CheckinResult.recorded CheckinStatus.present 0 false (some reasonSkipped) :=
  rfl

/-- A lesson whose teacher did not allow skipping GPS. -/
def lessonNoSkip : Lesson := ⟨41, 69, some 120, some "medium", false, some 60⟩

/-- An environment whose normal GPS flow fails at location acquisition. -/
def envNoSkip : CheckinEnv :=
  ⟨some Role.student, some lessonNoSkip,
    ⟨"Mozilla", Except.ok ⟨41, 69, 5, 1000⟩, Except.ok ⟨41, 69, 5, 2000⟩,
      Except.ok ⟨41, 69, 5, 3000⟩⟩,
    Except.error "GPS xatosi"⟩

/-- Claim C2 (counterexample): against a lesson with `allow_skip_gps = false`,
a check-in attempt with `skipGPS = true` still takes the skip path and returns
the fixed skip decision, although the normal GPS flow of the very same
environment is rejected with a GPS error — the skip is not ignored and the
normal flow does not execute. -/
theorem handleCheckin_skip_not_gated_counterexample :
    lessonNoSkip.allow_skip_gps = false ∧
      handleCheckin envNoSkip true =
        CheckinResult.recorded CheckinStatus.present 0 false (some reasonSkipped) ∧
      handleCheckin envNoSkip false = CheckinResult.gpsError "GPS xatosi" :=
  ⟨rfl, rfl, rfl⟩

/-- Claim C8: when the PIN resolves to a lesson, GPS is not skipped and the
orchestrator's location acquisition succeeds, the decision precedence is:
classifier verdict suspicious → status `suspicious` with the classifier's
reasons joined by ", "; otherwise distance beyond the effective radius
(`radius_meters || 120`) → status `suspicious` with the reason naming the
rounded distance and the allowed radius; otherwise status `present`. -/
theorem handleCheckin_precedence (role : Option Role) (lesson : Lesson)
    (gps : GpsEnv) (location : LocationData) :
    ((detectSuspiciousGPS (jsOrStr lesson.fake_detection_level "medium")
            lesson.radius_meters lesson.pin_validity_seconds role
            gps).1.isSuspicious = true →
        handleCheckin ⟨role, some lesson, gps, Except.ok location⟩ false =
          CheckinResult.recorded CheckinStatus.suspicious
            (calculateDistance (location.latitude : ℝ) (location.longitude : ℝ)
              (lesson.latitude : ℝ) (lesson.longitude : ℝ)) true
            (some (String.intercalate ", "
              (detectSuspiciousGPS (jsOrStr lesson.fake_detection_level "medium")
                lesson.radius_meters lesson.pin_validity_seconds role
                gps).1.reasons))) ∧
      ((detectSuspiciousGPS (jsOrStr lesson.fake_detection_level "medium")
            lesson.radius_meters lesson.pin_validity_seconds role
            gps).1.isSuspicious = false →
        ((jsOrNum lesson.radius_meters 120 : ℚ) : ℝ) <
            calculateDistance (location.latitude : ℝ) (location.longitude : ℝ)
              (lesson.latitude : ℝ) (lesson.longitude : ℝ) →
        handleCheckin ⟨role, some lesson, gps, Except.ok location⟩ false =
          CheckinResult.recorded CheckinStatus.suspicious
            (calculateDistance (location.latitude : ℝ) (location.longitude : ℝ)
              (lesson.latitude : ℝ) (lesson.longitude : ℝ)) false
            (some (tooFarReason
              (calculateDistance (location.latitude : ℝ) (location.longitude : ℝ)
                (lesson.latitude : ℝ) (lesson.longitude : ℝ))
              (jsOrNum lesson.radius_meters 120)))) ∧
      ((detectSuspiciousGPS (jsOrStr lesson.fake_detection_level "medium")
            lesson.radius_meters lesson.pin_validity_seconds role
            gps).1.isSuspicious = false →
        calculateDistance (location.latitude : ℝ) (location.longitude : ℝ)
            (lesson.latitude : ℝ) (lesson.longitude : ℝ) ≤
          ((jsOrNum lesson.radius_meters 120 : ℚ) : ℝ) →
        handleCheckin ⟨role, some lesson, gps, Except.ok location⟩ false =
          CheckinResult.recorded CheckinStatus.present
            (calculateDistance (location.latitude : ℝ) (location.longitude : ℝ)
              (lesson.latitude : ℝ) (lesson.longitude : ℝ)) false none) := by
  refine ⟨?_, ?_, ?_⟩
  · intro h
    simp [handleCheckin, h]
  · intro h hd
    simp [handleCheckin, h, not_le.mpr hd]
  · intro h hd
    simp [handleCheckin, h, hd]

/-- A lesson at (41, 69) with a 120 m radius allowing normal GPS flow. -/
def lessonW : Lesson := ⟨41, 69, some 120, some "medium", true, some 60⟩

/-- A clean acquisition environment: no emulator marker, sane accuracies,
readings that differ by more than 1e-7 degrees. -/
def gpsClean : GpsEnv :=
  ⟨"Mozilla", Except.ok ⟨41, 69, 5, 1000⟩, Except.ok ⟨41, 69, 5, 2000⟩,
    Except.ok ⟨41001/1000, 69, 5, 3000⟩⟩

/-- Witness for C8: a clean student check-in exactly at the lesson coordinates
is recorded `present` with the computed (zero) distance. -/
theorem handleCheckin_precedence_witness :
    handleCheckin ⟨some Role.student, some lessonW, gpsClean,
        Except.ok ⟨41, 69, 5, 1000⟩⟩ false =
      CheckinResult.recorded CheckinStatus.present
        (calculateDistance ((41:ℚ) : ℝ) ((69:ℚ) : ℝ) ((41:ℚ) : ℝ) ((69:ℚ) : ℝ))
        false none := by
  have hv : (detectSuspiciousGPS (jsOrStr lessonW.fake_detection_level "medium")
      lessonW.radius_meters lessonW.pin_validity_seconds (some Role.student)
      gpsClean).1.isSuspicious = false := by
    simp +decide [detectSuspiciousGPS, emulatorCheck, strToLower, strIncludes,
      charsContain, identicalCoords, gpsClean, lessonW, jsOrStr,
      List.isPrefixOf, abs_lt]
    norm_num
  have hd : calculateDistance ((41:ℚ) : ℝ) ((69:ℚ) : ℝ) ((41:ℚ) : ℝ) ((69:ℚ) : ℝ) ≤
      ((jsOrNum lessonW.radius_meters 120 : ℚ) : ℝ) := by
    rw [calculateDistance_self]
    have : (jsOrNum lessonW.radius_meters 120 : ℚ) = 120 := by
      norm_num [jsOrNum, lessonW]
    rw [this]
    norm_num
  exact (handleCheckin_precedence (some Role.student) lessonW gpsClean
    ⟨41, 69, 5, 1000⟩).2.2 hv hd

end CyberCheck
